import Mathlib

/-!
Verification of the agentic code-generation pipeline (agent/graph.py,
agent/promt.py): data model, prompt construction, the three agent stages
with their fallback tiers, the orchestration graph, and the file-system
tool layer.

The LLM is external: every place the source invokes it is modelled by an
oracle argument (a function from the prompt text actually sent to the
outcome of the call), so each theorem quantifies over all possible LLM
behaviours, including raising.
-/

namespace AgenticAI

/-! ## Data model

Modelled from the spec: the module agent/states.py (imported by
agent/graph.py via `from agent.states import *`) is not among the provided
sources; the record shapes below follow the spec, section 3 (Plan,
ImplementationTask, TaskPlan, CoderState) and their use in agent/graph.py.
-/

/-- Modelled from the spec: one entry of the files list of a Plan,
a path/purpose pair (agent/states.py is missing from the sources). -/
structure PlanFile where
  path : String
  purpose : String
deriving Repr, DecidableEq

/-- Modelled from the spec: the Plan record of agent/states.py (missing
from the sources): name, description, techstack, features, files. -/
structure Plan where
  name : String
  description : String
  techstack : String
  features : List String
  files : List PlanFile
deriving Repr, DecidableEq

/-- Modelled from the spec: the ImplementationTask record of
agent/states.py (missing from the sources): filepath and
task_description. -/
structure ImplementationTask where
  filepath : String
  task_description : String
deriving Repr, DecidableEq

/-- Modelled from the spec: the TaskPlan record of agent/states.py
(missing from the sources): the ordered implementation steps plus the
Plan back-reference, attached after construction (hence optional). -/
structure TaskPlan where
  implementation_steps : List ImplementationTask
  plan : Option Plan := none
deriving Repr, DecidableEq

/-- Modelled from the spec: the CoderState record of agent/states.py
(missing from the sources): the task plan and the zero-based cursor. -/
structure CoderState where
  task_plan : TaskPlan
  current_step_idx : Nat
deriving Repr, DecidableEq

/-- A value stored in the run-time state mapping (the Python dict threaded
through the graph). -/
inductive Value where
  | plan (p : Plan)
  | taskPlan (t : TaskPlan)
  | coderState (c : CoderState)
  | str (s : String)
deriving Repr, DecidableEq

/-- A state update returned by an agent node: the Python dict literal it
returns, as an ordered key/value list. -/
abbrev Update := List (String × Value)

/-- The run-time state mapping threaded through the whole pipeline
(spec section 3, Run-time State): user_prompt plus the optional keys the
stages fill in. -/
structure PipelineState where
  user_prompt : String
  plan : Option Plan := none
  task_plan : Option TaskPlan := none
  coder_state : Option CoderState := none
  status : Option String := none
deriving Repr, DecidableEq

/-- Merging a node's returned dict into the run-time state, key by key
(LangGraph merges the returned mapping into the shared dict state). -/
def applyUpdate (s : PipelineState) (u : Update) : PipelineState :=
  u.foldl (fun acc kv =>
    match kv with
    | ("plan", Value.plan p) => { acc with plan := some p }
    | ("task_plan", Value.taskPlan t) => { acc with task_plan := some t }
    | ("coder_state", Value.coderState c) => { acc with coder_state := some c }
    | ("status", Value.str v) => { acc with status := some v }
    | _ => acc) s

/-! ## File-system tool layer

Modelled from the spec: agent/tools.py (write_file, read_file, list_files,
get_current_directory), imported by agent/graph.py, is not among the
provided sources. The model follows the spec, section 4.1: every path is
resolved against the project root, normalized, and containment-checked
before any write; read_file fails with NotFound on a missing file.
Paths are segment lists; a file system is a map from absolute normalized
segment lists to contents.
-/

/-- Error kinds of the tool layer named by the spec. -/
inductive FsError where
  | NotFound
  | InvalidInput
deriving Repr, DecidableEq

/-- A file system: contents indexed by absolute normalized path. -/
def FileSystem := List String → Option String

/-- Modelled from the spec: path normalization used by the missing
agent/tools.py — collapse "." and empty segments, resolve ".." against
the preceding segment (at the root, ".." stays at the root, as with
absolute paths). -/
def normalizeSegs (segs : List String) : List String :=
  segs.foldl (fun acc seg =>
    if seg = "." ∨ seg = "" then acc
    else if seg = ".." then acc.dropLast
    else acc ++ [seg]) []

/-- Modelled from the spec: write_file of the missing agent/tools.py —
resolve the path against the project root, normalize, check containment
in the root, and only then persist (overwriting in full); fail with
InvalidInput when the resolved path escapes the root. -/
def write_file (root : List String) (fs : FileSystem) (path : List String)
    (content : String) : Except FsError FileSystem :=
  let resolved := normalizeSegs (root ++ path)
  if root.isPrefixOf resolved then
    Except.ok (fun q => if q = resolved then some content else fs q)
  else
    Except.error FsError.InvalidInput

/-- Modelled from the spec: read_file of the missing agent/tools.py —
resolve the path against the project root and return the file content,
failing with NotFound when the file does not exist. -/
def read_file (root : List String) (fs : FileSystem) (path : List String) :
    Except FsError String :=
  match fs (normalizeSegs (root ++ path)) with
  | some content => Except.ok content
  | none => Except.error FsError.NotFound

/-! ## Prompt construction (agent/promt.py) -/

/-- planner_prompt of agent/promt.py: the PLANNER_PROMPT f-string with the
user request interpolated. -/
def planner_prompt (user_prompt : String) : String :=
  "\nYou are the PLANNER agent. Convert the user prompt into a COMPLETE engineering project plan.\n" ++
  "Your output should be a comprehensive plan that lists all files needed and their purposes.\n\n" ++
  "For web projects (HTML/CSS/JS), ALWAYS include:\n" ++
  "- index.html - The main HTML structure\n" ++
  "- styles.css - All CSS styling  \n" ++
  "- script.js - All JavaScript functionality\n\n" ++
  "User request:\n" ++
  user_prompt ++
  "\n\nCreate a detailed plan that lists EVERY file needed for this project with its purpose.\n    "

/-- architect_prompt of agent/promt.py: the ARCHITECT_PROMPT f-string with
the serialized plan interpolated. -/
def architect_prompt (plan : String) : String :=
  "\nYou are the ARCHITECT agent. Given this project plan, break it down into explicit engineering tasks.\n\n" ++
  "CRITICAL RULES:\n" ++
  "- For EACH FILE in the plan, create ONE or MORE IMPLEMENTATION TASKS.\n" ++
  "- List files in dependency order (HTML first, then CSS, then JS).\n" ++
  "- In each task description, be VERY SPECIFIC:\n" ++
  "    * What goes in this file\n" ++
  "    * Key functions/classes/elements to implement\n" ++
  "    * Exactly what the code should do\n" ++
  "    * Integration with other files\n" ++
  "- Include concrete code requirements, not just descriptions.\n\n" ++
  "EXAMPLE STRUCTURE for Web App:\n" ++
  "1. Task: Create index.html with HTML structure\n" ++
  "2. Task: Create styles.css with all styling\n" ++
  "3. Task: Create script.js with all JavaScript logic\n\n" ++
  "Project Plan:\n" ++
  plan ++
  "\n\nBreak this into CONCRETE implementation tasks. Be specific about file content and what each file must contain.\n    "

/-- coder_system_prompt of agent/promt.py: the fixed CODER_SYSTEM_PROMPT
text; the Python function takes no argument, modelled with a Unit
argument. -/
def coder_system_prompt (_ : Unit) : String :=
  "\nYou are the CODER agent.\n" ++
  "You are implementing a specific engineering task.\n" ++
  "You have access to tools to read and write files.\n\n" ++
  "CRITICAL INSTRUCTIONS:\n" ++
  "- You MUST complete the task by writing/modifying files using the write_file tool\n" ++
  "- Review all existing files first to maintain compatibility\n" ++
  "- Implement the FULL COMPLETE file content\n" ++
  "- Do NOT write partial code or stubs - write complete, working code\n" ++
  "- When implementing a file, include all necessary parts (imports, functions, styling, HTML elements)\n" ++
  "- If a file doesn\x27t exist yet, create it with complete content\n" ++
  "- Use write_file to save your complete implementation\n" ++
  "- Always finish by writing the file - do not just explain what to do\n\n" ++
  "For web projects:\n" ++
  "- HTML files should have complete structure with all elements and proper linking to CSS/JS\n" ++
  "- CSS files should have all styling rules\n" ++
  "- JS files should have all functions, event listeners, and complete logic\n\n" ++
  "Make sure code is production-ready and fully functional.\n    "

/-! ## Agent stages (agent/graph.py)

Each LLM call site becomes an oracle argument receiving the prompt text
the source sends there:
- a structured-output attempt yields an exception (Except.error) or a
  value that may be None (Option), as with_structured_output can;
- a freeform JSON-parse attempt yields an exception or a validated record
  (record construction raises on a bad dict, caught by the same except);
- the coder ReAct interaction yields an exception or completes; its value
  is never used by the source.
-/

/-- The instruction appended to the planner prompt in planner_agent. -/
def planner_json_instruction : String :=
  "\n\nRespond with a valid JSON object with these keys: name, description, techstack, features (array), files (array of objects with path and purpose)"

/-- The hard-coded fallback Plan of planner_agent (agent/graph.py lines
40-50). -/
def planner_fallback_plan : Plan :=
  { name := "Scientific Calculator"
    description := "A colorful scientific calculator"
    techstack := "html,css,javascript"
    features := ["arithmetic", "scientific functions", "colorful UI"]
    files :=
      [ { path := "index.html", purpose := "Main HTML structure" }
      , { path := "styles.css", purpose := "Styling and layout" }
      , { path := "script.js", purpose := "Calculator logic" } ] }

/-- The try/except chain of planner_agent (agent/graph.py lines 28-50):
the value bound to resp after the structured attempt, the JSON-parse
fallback and the hard-coded fallback. -/
def planner_resp
    (structured : String → Except Unit (Option Plan))
    (jsonParse : String → Except Unit Plan)
    (prompt_text : String) : Option Plan :=
  match structured prompt_text with
  | Except.ok r => r
  | Except.error _ =>
    match jsonParse prompt_text with
    | Except.ok p => some p
    | Except.error _ => some planner_fallback_plan

/-- planner_agent of agent/graph.py: builds the planner prompt, tries the
structured-output call, falls back to the JSON-parse call, falls back to
the hard-coded default Plan; raises only if the final result is None. -/
def planner_agent
    (structured : String → Except Unit (Option Plan))
    (jsonParse : String → Except Unit Plan)
    (state_user_prompt : String) : Except String Update :=
  match planner_resp structured jsonParse
      (planner_prompt state_user_prompt ++ planner_json_instruction) with
  | none => Except.error "Planner did not return a valid response."
  | some p => Except.ok [("plan", Value.plan p)]

/-- Escaping used when serializing a Plan to JSON text. -/
def jsonEscape (s : String) : String :=
  s.foldl (fun acc c =>
    if c = '\\' then acc ++ "\\\\"
    else if c = '\"' then acc ++ "\\\""
    else if c = '\n' then acc ++ "\\n"
    else if c = '\t' then acc ++ "\\t"
    else if c = '\r' then acc ++ "\\r"
    else acc.push c) ""

/-- A JSON string literal. -/
def jsonStr (s : String) : String := "\"" ++ jsonEscape s ++ "\""

/-- Modelled from the spec: the serialized form of a Plan sent to the
architect (plan.model_dump_json() of the external pydantic library):
its full structured content as JSON text. -/
def plan_model_dump_json (p : Plan) : String :=
  "\x7b" ++ jsonStr "name" ++ ":" ++ jsonStr p.name ++
  "," ++ jsonStr "description" ++ ":" ++ jsonStr p.description ++
  "," ++ jsonStr "techstack" ++ ":" ++ jsonStr p.techstack ++
  "," ++ jsonStr "features" ++ ":[" ++
    String.intercalate "," (p.features.map jsonStr) ++ "]" ++
  "," ++ jsonStr "files" ++ ":[" ++
    String.intercalate "," (p.files.map (fun f =>
      "\x7b" ++ jsonStr "path" ++ ":" ++ jsonStr f.path ++
      "," ++ jsonStr "purpose" ++ ":" ++ jsonStr f.purpose ++ "\x7d")) ++
  "]\x7d"

/-- The instruction appended to the architect prompt in architect_agent. -/
def architect_json_instruction : String :=
  "\n\nRespond with a valid JSON object with key \x27implementation_steps\x27 containing an array of tasks with \x27filepath\x27 and \x27task_description\x27"

/-- The hard-coded fallback TaskPlan of architect_agent (agent/graph.py
lines 78-85). -/
def architect_fallback_task_plan : TaskPlan :=
  { implementation_steps :=
      [ { filepath := "index.html"
          task_description := "Create the HTML structure for a scientific calculator with display and button grid" }
      , { filepath := "styles.css"
          task_description := "Add gradient background, style the calculator layout, and create colorful buttons with hover effects" }
      , { filepath := "script.js"
          task_description := "Implement calculator logic with arithmetic and scientific functions" } ] }

/-- The try/except chain of architect_agent (agent/graph.py lines 66-85):
the value bound to resp after the structured attempt, the JSON-parse
fallback and the hard-coded fallback. -/
def architect_resp
    (structured : String → Except Unit (Option TaskPlan))
    (jsonParse : String → Except Unit TaskPlan)
    (prompt_text : String) : Option TaskPlan :=
  match structured prompt_text with
  | Except.ok r => r
  | Except.error _ =>
    match jsonParse prompt_text with
    | Except.ok t => some t
    | Except.error _ => some architect_fallback_task_plan

/-- architect_agent of agent/graph.py, continued: raises only if the
final resp is None, then attaches the input Plan as the back-reference
(resp.plan = plan) and returns the task_plan update. -/
def architect_agent
    (structured : String → Except Unit (Option TaskPlan))
    (jsonParse : String → Except Unit TaskPlan)
    (state_plan : Plan) : Except String Update :=
  match architect_resp structured jsonParse
      (architect_prompt (plan_model_dump_json state_plan) ++
        architect_json_instruction) with
  | none => Except.error "Architect did not return a valid response."
  | some t => Except.ok [("task_plan", Value.taskPlan { t with plan := some state_plan })]

/-- Lines 103-106 of agent/graph.py: the existing content read for the
current task, with a failed read (any exception) replaced by the empty
string. -/
def coder_existing_content (readResult : Except FsError String) : String :=
  match readResult with
  | Except.ok s => s
  | Except.error _ => ""

/-- Lines 109-114 of agent/graph.py: the per-task user prompt handed to
the ReAct interaction. -/
def coder_user_prompt (current_task : ImplementationTask)
    (existing_content : String) : String :=
  "Task: " ++ current_task.task_description ++ "\n" ++
  "File: " ++ current_task.filepath ++ "\n" ++
  "Existing content:\n" ++ existing_content ++ "\n" ++
  "IMPORTANT: Use the write_file tool to save your implementation!"

/-- coder_agent of agent/graph.py: create the CoderState lazily (cursor
0) if absent; if the cursor has reached the end of the steps, report DONE
without advancing; otherwise read existing content (read failure means
empty content), run the tool-using interaction on the built prompts with
any exception swallowed (its result is never used), and unconditionally
advance the cursor by one. The interaction oracle receives the system and
user prompts the source sends. -/
def coder_agent
    (readResult : Except FsError String)
    (interact : String → String → Except String Unit)
    (state_coder_state : Option CoderState)
    (state_task_plan : TaskPlan) : Update :=
  let coder_state := state_coder_state.getD
    { task_plan := state_task_plan, current_step_idx := 0 }
  let steps := coder_state.task_plan.implementation_steps
  if coder_state.current_step_idx ≥ steps.length then
    [("coder_state", Value.coderState coder_state), ("status", Value.str "DONE")]
  else
    let existing_content := coder_existing_content readResult
    let current_task := steps.getD coder_state.current_step_idx
      { filepath := "", task_description := "" }
    let system_prompt := coder_system_prompt ()
    let user_prompt := coder_user_prompt current_task existing_content
    let advanced : Update :=
      [("coder_state", Value.coderState
        { coder_state with current_step_idx := coder_state.current_step_idx + 1 })]
    match interact system_prompt user_prompt with
    | Except.ok _ => advanced
    | Except.error _ => advanced

/-! ## Orchestration graph (agent/graph.py lines 132-147)

Nodes planner, architect, coder; edges planner-to-architect and
architect-to-coder; a conditional edge out of coder routing on the status
key; entry point planner. Execution is modelled as a step function on an
execution status (running at a node / halted at END / failed by a raised
error), driven from the initial state that holds only the user prompt.
-/

/-- A node of the StateGraph. -/
inductive Node where
  | planner
  | architect
  | coder
deriving Repr, DecidableEq

/-- The oracles standing for every external LLM call a run can make; the
coder ones are indexed by which coder invocation is running. -/
structure Oracles where
  plannerStructured : String → Except Unit (Option Plan)
  plannerJson : String → Except Unit Plan
  architectStructured : String → Except Unit (Option TaskPlan)
  architectJson : String → Except Unit TaskPlan
  coderRead : Nat → Except FsError String
  coderInteract : Nat → String → String → Except String Unit

/-- The conditional-edge router out of the coder node (the lambda of
agent/graph.py line 141): "END" when the state carries status DONE,
otherwise "coder". -/
def coder_router (s : PipelineState) : String :=
  if s.status = some "DONE" then "END" else "coder"

/-- Runs one node body on the current state: planner reads user_prompt,
architect reads plan (a missing key raises, as the dict lookup would),
coder reads coder_state and, when that is absent, task_plan. The Nat is
the number of completed coder invocations, selecting the coder oracles. -/
def runNode (o : Oracles) (k : Nat) : Node → PipelineState → Except String Update
  | Node.planner, s => planner_agent o.plannerStructured o.plannerJson s.user_prompt
  | Node.architect, s =>
    match s.plan with
    | none => Except.error "KeyError: plan"
    | some p => architect_agent o.architectStructured o.architectJson p
  | Node.coder, s =>
    match s.coder_state with
    | some cs =>
      Except.ok (coder_agent (o.coderRead k) (o.coderInteract k) (some cs) cs.task_plan)
    | none =>
      match s.task_plan with
      | none => Except.error "KeyError: task_plan"
      | some tp => Except.ok (coder_agent (o.coderRead k) (o.coderInteract k) none tp)

/-- The outgoing edge of each node, evaluated on the state after the node
ran: planner to architect, architect to coder, coder conditionally to
coder or to END (none). -/
def nextNode : Node → PipelineState → Option Node
  | Node.planner, _ => some Node.architect
  | Node.architect, _ => some Node.coder
  | Node.coder, s => if coder_router s = "END" then none else some Node.coder

/-- Where a run stands: about to execute a node, halted at END, or
aborted by a propagated error. The Nat counts completed coder
invocations. -/
inductive ExecStatus where
  | running (n : Node) (s : PipelineState) (coderCalls : Nat)
  | halted (s : PipelineState)
  | failed (msg : String)
deriving Repr, DecidableEq

/-- One graph step: run the current node, merge its returned dict into
the state, follow the outgoing edge. -/
def execStep (o : Oracles) : ExecStatus → ExecStatus
  | ExecStatus.running n s k =>
    match runNode o k n s with
    | Except.error e => ExecStatus.failed e
    | Except.ok u =>
      let s2 := applyUpdate s u
      let k2 := match n with | Node.coder => k + 1 | _ => k
      match nextNode n s2 with
      | none => ExecStatus.halted s2
      | some n2 => ExecStatus.running n2 s2 k2
  | e => e

/-- The run after k graph steps, from the entry point planner on the
initial state holding only the user prompt. -/
def exec (o : Oracles) (up : String) : Nat → ExecStatus
  | 0 => ExecStatus.running Node.planner { user_prompt := up } 0
  | k + 1 => execStep o (exec o up k)

/-- The node an execution status is about to run, if any. -/
def execNodeOf : ExecStatus → Option Node
  | ExecStatus.running n _ _ => some n
  | _ => none

/-- The pipeline state carried by an execution status, if any. -/
def execStateOf : ExecStatus → Option PipelineState
  | ExecStatus.running _ s _ => some s
  | ExecStatus.halted s => some s
  | ExecStatus.failed _ => none

/-! ## Repeated coder invocation (the coder self-loop in isolation)

Feeding each call's output CoderState back in, starting from an absent
CoderState, exactly as the graph's coder self-loop does. -/

/-- The value stored under a key of a returned update dict. -/
def updLookup (u : Update) (key : String) : Option Value :=
  u.lookup key

/-- The CoderState carried by an update dict. -/
def updCoderState (u : Update) : Option CoderState :=
  match updLookup u "coder_state" with
  | some (Value.coderState c) => some c
  | _ => none

/-- The status string carried by an update dict. -/
def updStatus (u : Update) : Option String :=
  match updLookup u "status" with
  | some (Value.str s) => some s
  | _ => none

/-- The CoderState after k invocations of coder_agent on task plan tp,
starting from an absent CoderState and feeding each output back in. -/
def coderStateAfter (reads : Nat → Except FsError String)
    (interacts : Nat → String → String → Except String Unit)
    (tp : TaskPlan) : Nat → Option CoderState
  | 0 => none
  | k + 1 =>
    updCoderState
      (coder_agent (reads k) (interacts k) (coderStateAfter reads interacts tp k) tp)

/-- The update returned by invocation number k (zero-based: nthCoderCall
0 is the first call) of the repeated coder loop. -/
def nthCoderCall (reads : Nat → Except FsError String)
    (interacts : Nat → String → String → Except String Unit)
    (tp : TaskPlan) (k : Nat) : Update :=
  coder_agent (reads k) (interacts k) (coderStateAfter reads interacts tp k) tp

/-! ## Helper lemmas -/

/-- A failing-everywhere oracle set: structured output and JSON parsing
always raise, every read misses, every coder interaction raises. -/
def failOracles : Oracles :=
  { plannerStructured := fun _ => Except.error ()
    plannerJson := fun _ => Except.error ()
    architectStructured := fun _ => Except.error ()
    architectJson := fun _ => Except.error ()
    coderRead := fun _ => Except.error FsError.NotFound
    coderInteract := fun _ _ _ => Except.error "interaction failed" }

/-- A one-step task plan used as a concrete test input. -/
def tpOne : TaskPlan :=
  { implementation_steps := [{ filepath := "a.txt", task_description := "write a" }] }

theorem coder_agent_terminal_eq (r : Except FsError String)
    (i : String → String → Except String Unit) (cs : CoderState) (tp : TaskPlan)
    (h : cs.task_plan.implementation_steps.length ≤ cs.current_step_idx) :
    coder_agent r i (some cs) tp =
      [("coder_state", Value.coderState cs), ("status", Value.str "DONE")] := by
  simp only [coder_agent, Option.getD]
  rw [if_pos (by exact h)]

theorem coder_agent_advance_eq (r : Except FsError String)
    (i : String → String → Except String Unit) (cs : CoderState) (tp : TaskPlan)
    (h : cs.current_step_idx < cs.task_plan.implementation_steps.length) :
    coder_agent r i (some cs) tp =
      [("coder_state", Value.coderState
        { cs with current_step_idx := cs.current_step_idx + 1 })] := by
  simp only [coder_agent, Option.getD]
  rw [if_neg (by exact Nat.not_le.mpr h)]
  cases i (coder_system_prompt ())
      (coder_user_prompt
        (cs.task_plan.implementation_steps.getD cs.current_step_idx
          { filepath := "", task_description := "" })
        (coder_existing_content r)) <;> rfl

theorem coder_agent_none_eq (r : Except FsError String)
    (i : String → String → Except String Unit) (tp : TaskPlan) :
    coder_agent r i none tp =
      coder_agent r i (some { task_plan := tp, current_step_idx := 0 }) tp := rfl

theorem updCoderState_terminal (cs : CoderState) :
    updCoderState
      [("coder_state", Value.coderState cs), ("status", Value.str "DONE")] = some cs := by
  simp [updCoderState, updLookup, List.lookup]

theorem updCoderState_advanced (cs : CoderState) :
    updCoderState [("coder_state", Value.coderState cs)] = some cs := by
  simp [updCoderState, updLookup, List.lookup]

theorem updStatus_terminal (cs : CoderState) :
    updStatus
      [("coder_state", Value.coderState cs), ("status", Value.str "DONE")] =
      some "DONE" := by
  simp [updStatus, updLookup, List.lookup]

theorem updStatus_advanced (cs : CoderState) :
    updStatus [("coder_state", Value.coderState cs)] = none := by
  simp [updStatus, updLookup, List.lookup]

/-- After k repeated invocations the CoderState exists (for k at least 1),
still carries the same task plan, and its cursor is min k N. -/
theorem coderStateAfter_spec (reads : Nat → Except FsError String)
    (interacts : Nat → String → String → Except String Unit) (tp : TaskPlan)
    (k : Nat) :
    coderStateAfter reads interacts tp (k + 1) =
      some { task_plan := tp,
             current_step_idx := min (k + 1) tp.implementation_steps.length } := by
  induction k with
  | zero =>
    rw [coderStateAfter, coderStateAfter, coder_agent_none_eq]
    by_cases h : tp.implementation_steps.length ≤ 0
    · rw [coder_agent_terminal_eq _ _ _ _ h, updCoderState_terminal]
      have : tp.implementation_steps.length = 0 := Nat.le_zero.mp h
      simp [this]
    · rw [coder_agent_advance_eq _ _ _ _ (Nat.lt_of_not_le h), updCoderState_advanced]
      have : min 1 tp.implementation_steps.length = 1 :=
        Nat.min_eq_left (Nat.succ_le_of_lt (Nat.lt_of_not_le h))
      simp [this]
  | succ m ih =>
    rw [coderStateAfter, ih]
    by_cases h : tp.implementation_steps.length ≤ min (m + 1) tp.implementation_steps.length
    · rw [coder_agent_terminal_eq _ _ _ _ (by exact h), updCoderState_terminal]
      have hlen : min (m + 1) tp.implementation_steps.length =
          tp.implementation_steps.length :=
        Nat.le_antisymm (Nat.min_le_right _ _) h
      have hle : tp.implementation_steps.length ≤ m + 1 := by
        by_contra hc
        have := Nat.min_eq_left (Nat.le_of_lt (Nat.lt_of_not_le hc))
        omega
      have : min (m + 2) tp.implementation_steps.length =
          tp.implementation_steps.length :=
        Nat.min_eq_right (Nat.le_succ_of_le hle)
      simp [hlen, this]
    · rw [coder_agent_advance_eq _ _ _ _ (by exact Nat.lt_of_not_le h), updCoderState_advanced]
      have hlt : m + 1 < tp.implementation_steps.length := by
        have := Nat.lt_of_not_le h
        omega
      have h1 : min (m + 1) tp.implementation_steps.length = m + 1 :=
        Nat.min_eq_left (Nat.le_of_lt hlt)
      have h2 : min (m + 2) tp.implementation_steps.length = m + 2 :=
        Nat.min_eq_left (Nat.succ_le_of_lt hlt)
      simp [h1, h2]

theorem planner_agent_ok_shape
    (structured : String → Except Unit (Option Plan))
    (jsonParse : String → Except Unit Plan) (up : String) (u : Update)
    (h : planner_agent structured jsonParse up = Except.ok u) :
    ∃ p, u = [("plan", Value.plan p)] := by
  unfold planner_agent at h
  cases hr : planner_resp structured jsonParse
      (planner_prompt up ++ planner_json_instruction) with
  | none => rw [hr] at h; exact absurd h (by simp)
  | some p =>
    rw [hr] at h
    exact ⟨p, by injection h with h2; exact h2.symm⟩

theorem architect_resp_isSome_or
    (structured : String → Except Unit (Option TaskPlan))
    (jsonParse : String → Except Unit TaskPlan) (t : String) :
    architect_resp structured jsonParse t = none ∨
    ∃ r, architect_resp structured jsonParse t = some r := by
  cases h : architect_resp structured jsonParse t with
  | none => exact Or.inl rfl
  | some r => exact Or.inr ⟨r, rfl⟩

theorem architect_agent_ok_shape
    (structured : String → Except Unit (Option TaskPlan))
    (jsonParse : String → Except Unit TaskPlan) (p : Plan) (u : Update)
    (h : architect_agent structured jsonParse p = Except.ok u) :
    ∃ t, u = [("task_plan", Value.taskPlan t)] ∧ t.plan = some p := by
  unfold architect_agent at h
  cases hr : architect_resp structured jsonParse
      (architect_prompt (plan_model_dump_json p) ++ architect_json_instruction) with
  | none => rw [hr] at h; exact absurd h (by simp)
  | some t =>
    rw [hr] at h
    refine ⟨{ t with plan := some p }, ?_, rfl⟩
    injection h with h2
    exact h2.symm

theorem coder_agent_shape (r : Except FsError String)
    (i : String → String → Except String Unit)
    (cso : Option CoderState) (tp : TaskPlan) :
    (∃ c, coder_agent r i cso tp = [("coder_state", Value.coderState c)]) ∨
    (∃ c, coder_agent r i cso tp =
      [("coder_state", Value.coderState c), ("status", Value.str "DONE")]) := by
  set cs := cso.getD { task_plan := tp, current_step_idx := 0 } with hcs
  have hform : coder_agent r i cso tp = coder_agent r i (some cs) tp := by
    cases cso with
    | none => rfl
    | some c => rfl
  by_cases h : cs.task_plan.implementation_steps.length ≤ cs.current_step_idx
  · exact Or.inr ⟨cs, by rw [hform, coder_agent_terminal_eq _ _ _ _ h]⟩
  · exact Or.inl ⟨_, by rw [hform, coder_agent_advance_eq _ _ _ _ (Nat.lt_of_not_le h)]⟩

theorem applyUpdate_plan (s : PipelineState) (p : Plan) :
    applyUpdate s [("plan", Value.plan p)] = { s with plan := some p } := rfl

theorem applyUpdate_task_plan (s : PipelineState) (t : TaskPlan) :
    applyUpdate s [("task_plan", Value.taskPlan t)] =
      { s with task_plan := some t } := rfl

theorem applyUpdate_coder (s : PipelineState) (c : CoderState) :
    applyUpdate s [("coder_state", Value.coderState c)] =
      { s with coder_state := some c } := rfl

theorem applyUpdate_coder_done (s : PipelineState) (c : CoderState) :
    applyUpdate s
        [("coder_state", Value.coderState c), ("status", Value.str "DONE")] =
      { s with coder_state := some c, status := some "DONE" } := rfl

/-- The positional invariant of a run: the planner only ever runs as step
0, the architect only as step 1 with the plan present, and the coder only
from step 2 on with the task plan present. -/
def execInv (o : Oracles) (up : String) (k : Nat) : Prop :=
  match exec o up k with
  | ExecStatus.running Node.planner _ _ => k = 0
  | ExecStatus.running Node.architect s _ => k = 1 ∧ s.plan ≠ none
  | ExecStatus.running Node.coder s _ => 2 ≤ k ∧ s.task_plan ≠ none
  | _ => True

theorem execInv_holds (o : Oracles) (up : String) : ∀ k, execInv o up k := by
  intro k
  induction k with
  | zero => simp [execInv, exec]
  | succ m ih =>
    unfold execInv at ih ⊢
    rw [exec]
    cases hm : exec o up m with
    | halted s => simp [execStep]
    | failed e => simp [execStep]
    | running n s c =>
      rw [hm] at ih
      cases n with
      | planner =>
        simp only [execStep]
        cases hp : runNode o c Node.planner s with
        | error e => exact trivial
        | ok u =>
          obtain ⟨p, hu⟩ := planner_agent_ok_shape _ _ _ _ hp
          subst hu
          simp only [applyUpdate_plan, nextNode]
          exact ⟨by omega, by simp⟩
      | architect =>
        simp only [execStep]
        cases ha : runNode o c Node.architect s with
        | error e => exact trivial
        | ok u =>
          obtain ⟨hm1, hplan⟩ := ih
          have hps : ∃ pv, s.plan = some pv := by
            cases hsp : s.plan with
            | none => exact absurd hsp hplan
            | some pv => exact ⟨pv, rfl⟩
          obtain ⟨pv, hpv⟩ := hps
          rw [runNode, hpv] at ha
          obtain ⟨t, hu, _⟩ := architect_agent_ok_shape _ _ _ _ ha
          subst hu
          simp only [applyUpdate_task_plan, nextNode]
          exact ⟨by omega, by simp⟩
      | coder =>
        obtain ⟨hk2, htp⟩ := ih
        have hok : ∀ u, runNode o c Node.coder s = Except.ok u →
            (∃ c2, u = [("coder_state", Value.coderState c2)]) ∨
            (∃ c2, u = [("coder_state", Value.coderState c2),
                        ("status", Value.str "DONE")]) := by
          intro u hu
          rw [runNode] at hu
          cases hcso : s.coder_state with
          | some cs =>
            rw [hcso] at hu
            injection hu with hu2
            rw [← hu2]
            exact coder_agent_shape _ _ _ _
          | none =>
            rw [hcso] at hu
            cases hstp : s.task_plan with
            | none => exact absurd hstp htp
            | some tpv =>
              rw [hstp] at hu
              injection hu with hu2
              rw [← hu2]
              exact coder_agent_shape _ _ _ _
        simp only [execStep]
        cases hc : runNode o c Node.coder s with
        | error e => exact trivial
        | ok u =>
          rcases hok u hc with ⟨c2, hu⟩ | ⟨c2, hu⟩ <;> subst hu
          · simp only [applyUpdate_coder, nextNode, coder_router]
            by_cases hdone : s.status = some "DONE"
            · simp [hdone]
            · simp only [hdone, if_neg, ite_false]
              simp
              exact ⟨by omega, htp⟩
          · simp only [applyUpdate_coder_done, nextNode, coder_router]
            simp

theorem nthCoderCall_eq (reads : Nat → Except FsError String)
    (interacts : Nat → String → String → Except String Unit) (tp : TaskPlan)
    (k : Nat) :
    nthCoderCall reads interacts tp k =
      coder_agent (reads k) (interacts k)
        (some { task_plan := tp,
                current_step_idx := min k tp.implementation_steps.length }) tp := by
  cases k with
  | zero =>
    unfold nthCoderCall
    rw [coderStateAfter, coder_agent_none_eq]
    simp [Nat.zero_min]
  | succ m =>
    unfold nthCoderCall
    rw [coderStateAfter_spec]

/-! ## Claims -/

/-- Claim C1 counterexample: for the one-step task plan (N = 1) the first
invocation of coder_agent — the N-th call — does not report status DONE
(its update carries no status key at all), so DONE is not reached in
exactly N calls. -/
theorem coder_loop_exactly_N_counterexample :
    tpOne.implementation_steps.length = 1 ∧
    updStatus (nthCoderCall failOracles.coderRead failOracles.coderInteract
      tpOne 0) = none := by
  constructor
  · rfl
  · rw [nthCoderCall_eq, coder_agent_advance_eq _ _ _ _ (by decide)]
    exact updStatus_advanced _

/-- Claim C1 (amended): for a TaskPlan with N implementation steps,
repeatedly invoking coder_agent feeding each output CoderState back in
reaches status DONE in exactly N + 1 calls: none of the first N calls
carries a status, the call after them reports DONE, and at that call the
cursor equals N — regardless of whether the per-task reads and
interactions succeeded or raised. -/
theorem coder_loop_termination (reads : Nat → Except FsError String)
    (interacts : Nat → String → String → Except String Unit)
    (tp : TaskPlan) (N : Nat) (hN : tp.implementation_steps.length = N) :
    updStatus (nthCoderCall reads interacts tp N) = some "DONE" ∧
    (∀ k, k < N → updStatus (nthCoderCall reads interacts tp k) = none) ∧
    (∃ c, updCoderState (nthCoderCall reads interacts tp N) = some c ∧
      c.current_step_idx = N ∧ c.task_plan = tp) := by
  refine ⟨?_, ?_, ?_⟩
  · rw [nthCoderCall_eq, coder_agent_terminal_eq _ _ _ _ (by simp [hN])]
    exact updStatus_terminal _
  · intro k hk
    rw [nthCoderCall_eq,
      coder_agent_advance_eq _ _ _ _ (by simp [hN]; omega)]
    exact updStatus_advanced _
  · refine ⟨{ task_plan := tp, current_step_idx := min N tp.implementation_steps.length }, ?_, ?_, rfl⟩
    · rw [nthCoderCall_eq, coder_agent_terminal_eq _ _ _ _ (by simp [hN])]
      exact updCoderState_terminal _
    · simp [hN]

/-- Claim C1 witness: on the one-step plan, the first call has no status
and the second call reports DONE. -/
theorem coder_loop_termination_witness :
    tpOne.implementation_steps.length = 1 ∧
    updStatus (nthCoderCall failOracles.coderRead failOracles.coderInteract
      tpOne 1) = some "DONE" ∧
    updStatus (nthCoderCall failOracles.coderRead failOracles.coderInteract
      tpOne 0) = none :=
  ⟨rfl,
   (coder_loop_termination failOracles.coderRead failOracles.coderInteract
     tpOne 1 rfl).1,
   (coder_loop_termination failOracles.coderRead failOracles.coderInteract
     tpOne 1 rfl).2.1 0 (by decide)⟩

/-- Claim C2: when the cursor has reached or passed the end of the
implementation-steps list, coder_agent returns the DONE update with the
unchanged CoderState, independently of the read result, the interaction
oracle and the task plan in state (so no LLM or tool is consulted), and
calling it again on the returned CoderState gives the same result. -/
theorem coder_terminal_idempotent (r r2 : Except FsError String)
    (i i2 : String → String → Except String Unit)
    (cs : CoderState) (tp tp2 : TaskPlan)
    (h : cs.task_plan.implementation_steps.length ≤ cs.current_step_idx) :
    coder_agent r i (some cs) tp =
      [("coder_state", Value.coderState cs), ("status", Value.str "DONE")] ∧
    coder_agent r i (some cs) tp = coder_agent r2 i2 (some cs) tp2 ∧
    updCoderState (coder_agent r i (some cs) tp) = some cs ∧
    updStatus (coder_agent r i (some cs) tp) = some "DONE" := by
  rw [coder_agent_terminal_eq r i cs tp h, coder_agent_terminal_eq r2 i2 cs tp2 h]
  exact ⟨rfl, rfl, updCoderState_terminal cs, updStatus_terminal cs⟩

/-- Claim C2 witness: a CoderState at the end of the one-step plan. -/
theorem coder_terminal_idempotent_witness :
    tpOne.implementation_steps.length ≤ 1 ∧
    coder_agent (Except.error FsError.NotFound) (fun _ _ => Except.error "x")
        (some { task_plan := tpOne, current_step_idx := 1 }) tpOne =
      [("coder_state",
        Value.coderState { task_plan := tpOne, current_step_idx := 1 }),
       ("status", Value.str "DONE")] :=
  ⟨by decide,
   (coder_terminal_idempotent (Except.error FsError.NotFound)
     (Except.error FsError.NotFound) (fun _ _ => Except.error "x")
     (fun _ _ => Except.error "x") { task_plan := tpOne, current_step_idx := 1 }
     tpOne tpOne (by decide)).1⟩

/-- Claim C3: on a non-terminal call (cursor strictly below the number of
steps) coder_agent advances the cursor by exactly one and returns only
that update, with the same result whatever the interaction oracle does —
in particular when it raises, the exception is swallowed and no status or
retry is produced. -/
theorem coder_nonterminal_advances (r : Except FsError String)
    (i i2 : String → String → Except String Unit)
    (cs : CoderState) (tp : TaskPlan)
    (h : cs.current_step_idx < cs.task_plan.implementation_steps.length) :
    coder_agent r i (some cs) tp =
      [("coder_state", Value.coderState
        { cs with current_step_idx := cs.current_step_idx + 1 })] ∧
    coder_agent r i (some cs) tp = coder_agent r i2 (some cs) tp ∧
    updStatus (coder_agent r i (some cs) tp) = none := by
  rw [coder_agent_advance_eq r i cs tp h, coder_agent_advance_eq r i2 cs tp h]
  exact ⟨rfl, rfl, updStatus_advanced _⟩

/-- Claim C3 witness: a raising interaction on the first step of the
one-step plan still advances the cursor to 1. -/
theorem coder_nonterminal_advances_witness :
    (0 : Nat) < tpOne.implementation_steps.length ∧
    coder_agent (Except.ok "old content") (fun _ _ => Except.error "LLM raised")
        (some { task_plan := tpOne, current_step_idx := 0 }) tpOne =
      [("coder_state",
        Value.coderState { task_plan := tpOne, current_step_idx := 1 })] :=
  ⟨by decide,
   (coder_nonterminal_advances (Except.ok "old content")
     (fun _ _ => Except.error "LLM raised") (fun _ _ => Except.ok ())
     { task_plan := tpOne, current_step_idx := 0 } tpOne (by decide)).1⟩

/-- Claim C4: when the structured-output attempt and the JSON-parse
attempt both always raise, planner_agent returns exactly the fixed
default Plan, whatever the user prompt: name Scientific Calculator,
techstack html,css,javascript, exactly 3 features, and exactly the files
index.html, styles.css, script.js in that order. -/
theorem planner_fallback_determinism
    (structured : String → Except Unit (Option Plan))
    (jsonParse : String → Except Unit Plan)
    (hs : ∀ t, structured t = Except.error ())
    (hj : ∀ t, jsonParse t = Except.error ())
    (up : String) :
    planner_agent structured jsonParse up =
      Except.ok [("plan", Value.plan planner_fallback_plan)] ∧
    planner_fallback_plan.name = "Scientific Calculator" ∧
    planner_fallback_plan.techstack = "html,css,javascript" ∧
    planner_fallback_plan.features.length = 3 ∧
    planner_fallback_plan.files.map PlanFile.path =
      ["index.html", "styles.css", "script.js"] := by
  refine ⟨?_, rfl, rfl, rfl, rfl⟩
  unfold planner_agent planner_resp
  rw [hs, hj]

/-- Claim C4 witness: concrete always-failing oracles on a concrete
prompt. -/
theorem planner_fallback_determinism_witness :
    planner_agent (fun _ => Except.error ()) (fun _ => Except.error ())
        "make a todo app" =
      Except.ok [("plan", Value.plan planner_fallback_plan)] :=
  (planner_fallback_determinism (fun _ => Except.error ())
    (fun _ => Except.error ()) (fun _ => rfl) (fun _ => rfl) "make a todo app").1

/-- Claim C5: under the same double failure, architect_agent returns the
fixed default TaskPlan with exactly the steps index.html, styles.css,
script.js in that order, each with a non-empty task_description, and with
the input Plan attached; and on every successful path whatsoever the
returned TaskPlan carries the input Plan as its plan field. -/
theorem architect_fallback_and_backref
    (structured : String → Except Unit (Option TaskPlan))
    (jsonParse : String → Except Unit TaskPlan)
    (hs : ∀ t, structured t = Except.error ())
    (hj : ∀ t, jsonParse t = Except.error ())
    (p : Plan) :
    architect_agent structured jsonParse p =
      Except.ok [("task_plan", Value.taskPlan
        { architect_fallback_task_plan with plan := some p })] ∧
    architect_fallback_task_plan.implementation_steps.map
      ImplementationTask.filepath = ["index.html", "styles.css", "script.js"] ∧
    (∀ t ∈ architect_fallback_task_plan.implementation_steps,
      t.task_description ≠ "") ∧
    (∀ s2 j2 q u, architect_agent s2 j2 q = Except.ok u →
      ∃ t, u = [("task_plan", Value.taskPlan t)] ∧ t.plan = some q) := by
  refine ⟨?_, rfl, by decide, fun s2 j2 q u h => architect_agent_ok_shape s2 j2 q u h⟩
  unfold architect_agent architect_resp
  rw [hs, hj]

/-- Claim C5 witness: concrete always-failing oracles on the default
plan as input. -/
theorem architect_fallback_and_backref_witness :
    architect_agent (fun _ => Except.error ()) (fun _ => Except.error ())
        planner_fallback_plan =
      Except.ok [("task_plan", Value.taskPlan
        { architect_fallback_task_plan with plan := some planner_fallback_plan })] :=
  (architect_fallback_and_backref (fun _ => Except.error ())
    (fun _ => Except.error ()) (fun _ => rfl) (fun _ => rfl)
    planner_fallback_plan).1

theorem exec_coder_step (o : Oracles) (up : String) (k : Nat)
    (s : PipelineState) (c : Nat)
    (hk : exec o up k = ExecStatus.running Node.coder s c) :
    ∃ s2, (exec o up (k + 1) = ExecStatus.halted s2 ∨
           ∃ c2, exec o up (k + 1) = ExecStatus.running Node.coder s2 c2) ∧
          (exec o up (k + 1) = ExecStatus.halted s2 ↔ s2.status = some "DONE") := by
  have hinv := execInv_holds o up k
  unfold execInv at hinv
  rw [hk] at hinv
  obtain ⟨_, htp⟩ := hinv
  have hrun : ∃ u, runNode o c Node.coder s = Except.ok u ∧
      ((∃ c2, u = [("coder_state", Value.coderState c2)]) ∨
       (∃ c2, u = [("coder_state", Value.coderState c2),
                   ("status", Value.str "DONE")])) := by
    rw [runNode]
    cases hcso : s.coder_state with
    | some cs => exact ⟨_, rfl, coder_agent_shape _ _ _ _⟩
    | none =>
      cases hstp : s.task_plan with
      | none => exact absurd hstp htp
      | some tpv => exact ⟨_, rfl, coder_agent_shape _ _ _ _⟩
  obtain ⟨u, hu, hshape⟩ := hrun
  rw [exec, hk]
  simp only [execStep, hu]
  rcases hshape with ⟨c2, rfl⟩ | ⟨c2, rfl⟩
  · simp only [applyUpdate_coder, nextNode, coder_router]
    by_cases hdone : s.status = some "DONE"
    · exact ⟨{ s with coder_state := some c2 }, by simp [hdone], by simp [hdone]⟩
    · refine ⟨{ s with coder_state := some c2 }, Or.inr ⟨c + 1, by simp [hdone]⟩, ?_⟩
      constructor
      · intro hcontra
        simp [hdone] at hcontra
      · intro hst
        exact absurd hst hdone
  · simp only [applyUpdate_coder_done, nextNode, coder_router]
    exact ⟨{ s with coder_state := some c2, status := some "DONE" },
      by simp, by simp⟩

/-- The pipeline state carried by an execution status, with a dummy
default for the failed case (used to name concrete states in closed
statements). -/
def execStateD (e : ExecStatus) : PipelineState :=
  (execStateOf e).getD { user_prompt := "" }

/-- The completed-coder-invocations counter of an execution status. -/
def execCallsOf : ExecStatus → Nat
  | ExecStatus.running _ _ c => c
  | _ => 0

/-- Claim C6: every run enters at the planner (step 0); the planner node
only ever runs as step 0, the architect only as step 1 (hence after the
planner and before the coder) and with the plan present, and the coder
only from step 2 on and never before a non-absent task_plan is in the
state; and after each coder step the graph self-loops on coder exactly
when the resulting state does not carry status DONE, and halts at the
terminal state exactly when it does. -/
theorem graph_ordering_and_loop (o : Oracles) (up : String) (k : Nat) :
    (exec o up 0 = ExecStatus.running Node.planner { user_prompt := up } 0) ∧
    (∀ n s c, exec o up k = ExecStatus.running n s c →
      (n = Node.planner → k = 0) ∧
      (n = Node.architect → k = 1 ∧ s.plan ≠ none) ∧
      (n = Node.coder → 2 ≤ k ∧ s.task_plan ≠ none)) ∧
    (∀ s c, exec o up k = ExecStatus.running Node.coder s c →
      ∃ s2, (exec o up (k + 1) = ExecStatus.halted s2 ∨
             ∃ c2, exec o up (k + 1) = ExecStatus.running Node.coder s2 c2) ∧
            (exec o up (k + 1) = ExecStatus.halted s2 ↔
              s2.status = some "DONE")) := by
  refine ⟨rfl, ?_, fun s c hk => exec_coder_step o up k s c hk⟩
  intro n s c hk
  have hinv := execInv_holds o up k
  unfold execInv at hinv
  rw [hk] at hinv
  cases n with
  | planner => exact ⟨fun _ => hinv, fun h2 => absurd h2 (by simp),
      fun h2 => absurd h2 (by simp)⟩
  | architect => exact ⟨fun h2 => absurd h2 (by simp), fun _ => hinv,
      fun h2 => absurd h2 (by simp)⟩
  | coder => exact ⟨fun h2 => absurd h2 (by simp),
      fun h2 => absurd h2 (by simp), fun _ => hinv⟩

/-- Claim C6 witness: with everywhere-failing oracles, step 2 runs the
coder on a state whose task_plan is present, and the following step
self-loops or halts according to the DONE status. -/
theorem graph_ordering_and_loop_witness :
    ((2 : Nat) ≤ 2 ∧ (execStateD (exec failOracles "x" 2)).task_plan ≠ none) ∧
    (∃ s2, (exec failOracles "x" 3 = ExecStatus.halted s2 ∨
            ∃ c2, exec failOracles "x" 3 =
              ExecStatus.running Node.coder s2 c2) ∧
           (exec failOracles "x" 3 = ExecStatus.halted s2 ↔
             s2.status = some "DONE")) :=
  ⟨((graph_ordering_and_loop failOracles "x" 2).2.1 Node.coder
      (execStateD (exec failOracles "x" 2))
      (execCallsOf (exec failOracles "x" 2)) (by decide)).2.2 rfl,
   (graph_ordering_and_loop failOracles "x" 2).2.2
      (execStateD (exec failOracles "x" 2))
      (execCallsOf (exec failOracles "x" 2)) (by decide)⟩

/-- Claim C7: when the normalized resolution of the path against the
project root escapes the root (as with parent-directory traversal
segments), write_file fails with InvalidInput on every file system — the
containment check precedes any write — and, in general, a successful
write never creates or modifies any entry outside the project root. -/
theorem write_file_path_containment (root path : List String) (content : String)
    (h : root.isPrefixOf (normalizeSegs (root ++ path)) = false) :
    (∀ fs, write_file root fs path content = Except.error FsError.InvalidInput) ∧
    (∀ fs fs2 p2 c2, write_file root fs p2 c2 = Except.ok fs2 →
      ∀ q, root.isPrefixOf q = false → fs2 q = fs q) := by
  constructor
  · intro fs
    unfold write_file
    simp [h]
  · intro fs fs2 p2 c2 hw q hq
    unfold write_file at hw
    by_cases hc : root.isPrefixOf (normalizeSegs (root ++ p2)) = true
    · rw [if_pos hc] at hw
      injection hw with hw2
      rw [← hw2]
      have hne : q ≠ normalizeSegs (root ++ p2) := by
        intro heq
        rw [heq] at hq
        rw [hq] at hc
        exact absurd hc (by simp)
      simp [hne]
    · rw [if_neg hc] at hw
      exact absurd hw (by simp)

/-- Claim C7 witness: writing to ../../etc/passwd from the project root
home/proj fails with InvalidInput on the empty file system. -/
theorem write_file_path_containment_witness :
    (["home", "proj"].isPrefixOf
      (normalizeSegs (["home", "proj"] ++ ["..", "..", "etc", "passwd"])) =
      false) ∧
    write_file ["home", "proj"] (fun _ => none)
        ["..", "..", "etc", "passwd"] "malicious" =
      Except.error FsError.InvalidInput :=
  ⟨by decide,
   (write_file_path_containment ["home", "proj"] ["..", "..", "etc", "passwd"]
      "malicious" (by decide)).1 (fun _ => none)⟩

/-- Claim C8: reading a non-existent path fails with NotFound; the coder
stage turns that failure into the empty string as existing content,
behaves exactly as if the file had existed with empty content, and
proceeds with the task (advancing the cursor) instead of propagating the
failure. -/
theorem read_miss_tolerance (root : List String) (fs : FileSystem)
    (path : List String)
    (h : fs (normalizeSegs (root ++ path)) = none) :
    read_file root fs path = Except.error FsError.NotFound ∧
    coder_existing_content (read_file root fs path) = "" ∧
    (∀ i cso tp, coder_agent (read_file root fs path) i cso tp =
      coder_agent (Except.ok "") i cso tp) ∧
    (∀ i cs tp, cs.current_step_idx < cs.task_plan.implementation_steps.length →
      coder_agent (read_file root fs path) i (some cs) tp =
        [("coder_state", Value.coderState
          { cs with current_step_idx := cs.current_step_idx + 1 })]) := by
  have h1 : read_file root fs path = Except.error FsError.NotFound := by
    unfold read_file
    rw [h]
  refine ⟨h1, by rw [h1]; rfl, ?_, ?_⟩
  · intro i cso tp
    rw [h1]
    rfl
  · intro i cs tp hlt
    rw [h1]
    exact coder_agent_advance_eq _ _ _ _ hlt

/-- Claim C8 witness: reading a.txt from the empty file system under
root home/proj misses, and the coder on the one-step plan still advances
to cursor 1. -/
theorem read_miss_tolerance_witness :
    ((fun _ : List String => (none : Option String))
      (normalizeSegs (["home", "proj"] ++ ["a.txt"])) = none) ∧
    read_file ["home", "proj"] (fun _ => none) ["a.txt"] =
      Except.error FsError.NotFound ∧
    coder_agent (read_file ["home", "proj"] (fun _ => none) ["a.txt"])
        (fun _ _ => Except.error "LLM raised")
        (some { task_plan := tpOne, current_step_idx := 0 }) tpOne =
      [("coder_state",
        Value.coderState { task_plan := tpOne, current_step_idx := 1 })] :=
  ⟨rfl,
   (read_miss_tolerance ["home", "proj"] (fun _ => none) ["a.txt"] rfl).1,
   (read_miss_tolerance ["home", "proj"] (fun _ => none) ["a.txt"] rfl).2.2.2
     (fun _ _ => Except.error "LLM raised")
     { task_plan := tpOne, current_step_idx := 0 } tpOne (by decide)⟩

/-- Claim C9: prompt construction is pure and deterministic — equal
user prompts give equal planner prompts, the planner prompt contains the
user request verbatim as a substring (it is a fixed prefix, then the
request, then a fixed suffix), and coder_system_prompt returns the same
fixed string on every call, having no dynamic input. -/
theorem prompt_functions_pure :
    (∀ u v : String, u = v → planner_prompt u = planner_prompt v) ∧
    (∀ u : String, ∃ a b : String, planner_prompt u = a ++ u ++ b) ∧
    (∀ x y : Unit, coder_system_prompt x = coder_system_prompt y) := by
  refine ⟨fun u v h => by rw [h], fun u => ?_, fun x y => rfl⟩
  exact ⟨"\nYou are the PLANNER agent. Convert the user prompt into a COMPLETE engineering project plan.\n" ++
    "Your output should be a comprehensive plan that lists all files needed and their purposes.\n\n" ++
    "For web projects (HTML/CSS/JS), ALWAYS include:\n" ++
    "- index.html - The main HTML structure\n" ++
    "- styles.css - All CSS styling  \n" ++
    "- script.js - All JavaScript functionality\n\n" ++
    "User request:\n",
    "\n\nCreate a detailed plan that lists EVERY file needed for this project with its purpose.\n    ",
    rfl⟩

/-- Claim C9 witness: instantiated at a concrete user request. -/
theorem prompt_functions_pure_witness :
    planner_prompt "build a calculator" = planner_prompt "build a calculator" ∧
    (∃ a b : String,
      planner_prompt "build a calculator" = a ++ "build a calculator" ++ b) :=
  ⟨prompt_functions_pure.1 "build a calculator" "build a calculator" rfl,
   prompt_functions_pure.2.1 "build a calculator"⟩

/-- Claim C10: each stage returns a dict touching only its designated
keys — planner exactly the key plan, architect exactly the key
task_plan, and coder exactly the key coder_state, together with status
exactly on the terminal call (cursor at or past the end; for a freshly
created CoderState, exactly when the step list is empty) — so no stage
writes user_prompt or a key owned by an earlier stage. -/
theorem stage_update_keys
    (planS : String → Except Unit (Option Plan))
    (planJ : String → Except Unit Plan)
    (archS : String → Except Unit (Option TaskPlan))
    (archJ : String → Except Unit TaskPlan)
    (up : String) (p : Plan) (r : Except FsError String)
    (i : String → String → Except String Unit) :
    (∀ u, planner_agent planS planJ up = Except.ok u →
      u.map Prod.fst = ["plan"]) ∧
    (∀ u, architect_agent archS archJ p = Except.ok u →
      u.map Prod.fst = ["task_plan"]) ∧
    (∀ cs tp, cs.task_plan.implementation_steps.length ≤ cs.current_step_idx →
      (coder_agent r i (some cs) tp).map Prod.fst = ["coder_state", "status"]) ∧
    (∀ cs tp, cs.current_step_idx < cs.task_plan.implementation_steps.length →
      (coder_agent r i (some cs) tp).map Prod.fst = ["coder_state"]) ∧
    (∀ tp, (coder_agent r i none tp).map Prod.fst =
      if tp.implementation_steps.length = 0
      then ["coder_state", "status"] else ["coder_state"]) := by
  refine ⟨?_, ?_, ?_, ?_, ?_⟩
  · intro u hu
    obtain ⟨pv, rfl⟩ := planner_agent_ok_shape _ _ _ _ hu
    rfl
  · intro u hu
    obtain ⟨t, rfl, _⟩ := architect_agent_ok_shape _ _ _ _ hu
    rfl
  · intro cs tp hterm
    rw [coder_agent_terminal_eq _ _ _ _ hterm]
    rfl
  · intro cs tp hlt
    rw [coder_agent_advance_eq _ _ _ _ hlt]
    rfl
  · intro tp
    rw [coder_agent_none_eq]
    by_cases h0 : tp.implementation_steps.length = 0
    · rw [coder_agent_terminal_eq _ _ _ _ (by simp [h0])]
      simp [h0]
    · rw [coder_agent_advance_eq _ _ _ _ (by simp; omega)]
      simp [h0]

/-- Claim C10 witness: concrete key lists for each stage on concrete
inputs. -/
theorem stage_update_keys_witness :
    [("plan", Value.plan planner_fallback_plan)].map Prod.fst = ["plan"] ∧
    (coder_agent (Except.error FsError.NotFound)
      (fun _ _ => Except.error "x")
      (some { task_plan := tpOne, current_step_idx := 0 }) tpOne).map
        Prod.fst = ["coder_state"] ∧
    (coder_agent (Except.error FsError.NotFound)
      (fun _ _ => Except.error "x")
      (some { task_plan := tpOne, current_step_idx := 1 }) tpOne).map
        Prod.fst = ["coder_state", "status"] :=
  ⟨(stage_update_keys (fun _ => Except.error ()) (fun _ => Except.error ())
      (fun _ => Except.error ()) (fun _ => Except.error ()) "x"
      planner_fallback_plan (Except.error FsError.NotFound)
      (fun _ _ => Except.error "x")).1
        [("plan", Value.plan planner_fallback_plan)] rfl,
   (stage_update_keys (fun _ => Except.error ()) (fun _ => Except.error ())
      (fun _ => Except.error ()) (fun _ => Except.error ()) "x"
      planner_fallback_plan (Except.error FsError.NotFound)
      (fun _ _ => Except.error "x")).2.2.2.1
        { task_plan := tpOne, current_step_idx := 0 } tpOne (by decide),
   (stage_update_keys (fun _ => Except.error ()) (fun _ => Except.error ())
      (fun _ => Except.error ()) (fun _ => Except.error ()) "x"
      planner_fallback_plan (Except.error FsError.NotFound)
      (fun _ _ => Except.error "x")).2.2.1
        { task_plan := tpOne, current_step_idx := 1 } tpOne (by decide)⟩

end AgenticAI
